import Mathlib

/-!
Shallow embedding of the grocery-store ledger application (src/app.py).

The persisted state (PostgreSQL tables created in `init_db`) is modelled as a
`DBState` record of lists of rows.  `DECIMAL(10,2)` money columns are modelled
as `Int`: every monetary value appearing in the source (sample data, and all
claim scenarios) is a whole number, and the operations use only addition,
subtraction and multiplication by integers, under which exact decimal
arithmetic coincides with integer arithmetic.  `SERIAL` primary keys are
modelled by per-table `next_*_id` counters.

Each HTTP handler that mutates state is translated to a pure function
`DBState → ... → DBState × result`.  The psycopg2 commit/rollback discipline of
the source (all statements of a handler inside one `try`, with `conn.commit()`
at the end and `conn.rollback()` in the `except` branch) is embedded by making
each handler either return the fully-updated state (commit) or the unchanged
input state together with an error result (rollback).  Database-enforced
failures (foreign keys, unique constraints) are the `if` guards.
-/

namespace Grocery

/-- A row of the `customers` table (`init_db`, src/app.py lines 51-60):
`total_borrowed` and `total_repaid` both have `DEFAULT 0`. -/
structure Customer where
  id : Nat
  name : String
  phone : String
  email : Option String
  address : Option String
  total_borrowed : Int
  total_repaid : Int
deriving DecidableEq

/-- A row of the `products` table (`init_db`, src/app.py lines 63-72). -/
structure Product where
  id : Nat
  name : String
  category : String
  price : Int
  stock : Int
  low_stock_threshold : Int
  unit : String
deriving DecidableEq

/-- The `transaction_type` column: the only values ever inserted are
`'borrow'` (`add_borrow`) and `'repay'` (`add_repayment`). -/
inductive TxKind where
  | borrow
  | repay
deriving DecidableEq

/-- A row of the `transactions` table (`init_db`, src/app.py lines 75-85).
`customer_id` has a foreign key to `customers`, `created_by` a nullable
foreign key to `users`. -/
structure Transaction where
  id : Nat
  customer_id : Nat
  transaction_type : TxKind
  amount : Int
  description : Option String
  created_by : Option Nat
deriving DecidableEq

/-- A row of the `sales` table (`init_db`, src/app.py lines 88-97). -/
structure Sale where
  id : Nat
  customer_id : Option Nat
  total_amount : Int
  payment_status : String
  created_by : Option Nat
deriving DecidableEq

/-- A row of the `sale_items` table (`init_db`, src/app.py lines 100-108):
`product_id` has a plain foreign key to `products` (no ON DELETE action, so
deleting a referenced product is rejected by the store). -/
structure SaleItem where
  id : Nat
  sale_id : Nat
  product_id : Nat
  quantity : Int
  price : Int
deriving DecidableEq

/-- The whole persisted state.  Users are only ever referenced by id
(`created_by` columns), so the `users` table is modelled as its list of ids. -/
structure DBState where
  users : List Nat
  customers : List Customer
  products : List Product
  transactions : List Transaction
  sales : List Sale
  sale_items : List SaleItem
  next_customer_id : Nat
  next_product_id : Nat
  next_transaction_id : Nat
  next_sale_id : Nat
  next_sale_item_id : Nat
deriving DecidableEq

/-- The state produced by `init_db` (src/app.py lines 36-154) on a fresh
database: two default users, ten sample products, three sample customers with
pre-seeded `total_borrowed` / `total_repaid` values, and no transactions,
sales or sale items. -/
def initState : DBState where
  users := [1, 2]
  customers :=
    [⟨1, "Rajesh Kumar", "9876543210", some "rajesh@email.com", some "123 Main St", 1500, 800⟩,
     ⟨2, "Priya Sharma", "9876543211", some "priya@email.com", some "456 Park Ave", 2000, 2000⟩,
     ⟨3, "Amit Patel", "9876543212", some "amit@email.com", some "789 Gandhi Road", 500, 0⟩]
  products :=
    [⟨1, "Rice (1kg)", "Grains", 60, 100, 20, "kg"⟩,
     ⟨2, "Wheat Flour (1kg)", "Grains", 45, 80, 15, "kg"⟩,
     ⟨3, "Milk (1L)", "Dairy", 55, 15, 20, "liter"⟩,
     ⟨4, "Paneer (200g)", "Dairy", 80, 25, 10, "pack"⟩,
     ⟨5, "Tomatoes (1kg)", "Vegetables", 40, 50, 15, "kg"⟩,
     ⟨6, "Onions (1kg)", "Vegetables", 35, 60, 20, "kg"⟩,
     ⟨7, "Potatoes (1kg)", "Vegetables", 30, 70, 25, "kg"⟩,
     ⟨8, "Bread", "Bakery", 25, 40, 15, "piece"⟩,
     ⟨9, "Biscuits", "Snacks", 20, 100, 30, "pack"⟩,
     ⟨10, "Tea (250g)", "Beverages", 150, 50, 10, "pack"⟩]
  transactions := []
  sales := []
  sale_items := []
  next_customer_id := 4
  next_product_id := 11
  next_transaction_id := 1
  next_sale_id := 1
  next_sale_item_id := 1

/-- The foreign-key check the store performs for `transactions.customer_id`. -/
def customerExists (s : DBState) (cid : Nat) : Bool :=
  s.customers.any (fun c => c.id == cid)

/-- The foreign-key check the store performs for a nullable `created_by`
column referencing `users(id)`. -/
def userOk (s : DBState) (u : Option Nat) : Bool :=
  match u with
  | none => true
  | some uid => s.users.any (fun x => x == uid)

/-- Handler `add_borrow` (src/app.py lines 396-420), POST /api/transactions/borrow:
inside one try-block it inserts a `'borrow'` transaction row and adds the
amount to the customer's `total_borrowed`, then commits; any failure (here:
a foreign-key violation) rolls the whole unit of work back and returns an
error.  The handler performs no validation of `amount` itself. -/
def add_borrow (s : DBState) (customer_id : Nat) (amount : Int)
    (description : Option String) (created_by : Option Nat) : DBState × Bool :=
  if customerExists s customer_id && userOk s created_by then
    ({ s with
        transactions := s.transactions ++
          [⟨s.next_transaction_id, customer_id, TxKind.borrow, amount, description, created_by⟩],
        customers := s.customers.map (fun c =>
          if c.id == customer_id then { c with total_borrowed := c.total_borrowed + amount } else c),
        next_transaction_id := s.next_transaction_id + 1 }, true)
  else
    (s, false)

/-- Handler `add_repayment` (src/app.py lines 422-446), POST /api/transactions/repay:
same shape as `add_borrow` but inserts a `'repay'` row and adds to
`total_repaid`.  No validation of `amount`. -/
def add_repayment (s : DBState) (customer_id : Nat) (amount : Int)
    (description : Option String) (created_by : Option Nat) : DBState × Bool :=
  if customerExists s customer_id && userOk s created_by then
    ({ s with
        transactions := s.transactions ++
          [⟨s.next_transaction_id, customer_id, TxKind.repay, amount, description, created_by⟩],
        customers := s.customers.map (fun c =>
          if c.id == customer_id then { c with total_repaid := c.total_repaid + amount } else c),
        next_transaction_id := s.next_transaction_id + 1 }, true)
  else
    (s, false)

/-- Handler `add_customer` (src/app.py lines 347-368), POST /api/customers: inserts
name, phone, email, address only; `total_borrowed` and `total_repaid` take
their column defaults of 0.  The unique constraint on `phone` makes the
insert fail (rollback, error response) on a duplicate phone. -/
def add_customer (s : DBState) (name phone : String)
    (email address : Option String) : DBState × Option Nat :=
  if s.customers.any (fun c => c.phone == phone) then
    (s, none)
  else
    ({ s with
        customers := s.customers ++
          [⟨s.next_customer_id, name, phone, email, address, 0, 0⟩],
        next_customer_id := s.next_customer_id + 1 }, some s.next_customer_id)

/-- Handler `add_product` (src/app.py lines 251-270), POST /api/products. -/
def add_product (s : DBState) (name category : String)
    (price stock threshold : Int) (unit : String) : DBState × Nat :=
  ({ s with
      products := s.products ++
        [⟨s.next_product_id, name, category, price, stock, threshold, unit⟩],
      next_product_id := s.next_product_id + 1 }, s.next_product_id)

/-- Handler `update_product` (src/app.py lines 272-290), PUT /api/products/id:
overwrites every mutable column of the matching product row. -/
def update_product (s : DBState) (pid : Nat) (name category : String)
    (price stock threshold : Int) (unit : String) : DBState :=
  { s with
      products := s.products.map (fun p =>
        if p.id == pid then ⟨pid, name, category, price, stock, threshold, unit⟩ else p) }

/-- Handler `delete_product` (src/app.py lines 292-306), DELETE /api/products/id:
`DELETE FROM products WHERE id=%s`.  The foreign key
`sale_items.product_id REFERENCES products(id)` has no ON DELETE action, so
the store rejects the delete whenever some sale item references the product
(the uncommitted unit of work is then rolled back); otherwise the row (if
any) is removed and the delete commits. -/
def delete_product (s : DBState) (pid : Nat) : DBState × Bool :=
  if s.sale_items.any (fun si => si.product_id == pid) then
    (s, false)
  else
    ({ s with products := s.products.filter (fun p => !(p.id == pid)) }, true)

/-- Predicate `isLowStock` — the `WHERE stock <= low_stock_threshold`
clauses in `get_low_stock` (src/app.py lines 320-332) and
`get_dashboard_analytics` (lines 466-469).  It is computed from the row, never
stored. -/
def isLowStock (p : Product) : Bool :=
  p.stock ≤ p.low_stock_threshold

/-- Handler `get_low_stock` (src/app.py lines 320-332), GET /api/products/low-stock:
`SELECT * FROM products WHERE stock <= low_stock_threshold ORDER BY stock ASC`.
Read-only; the ORDER BY is modelled by a stable merge sort on `stock`. -/
def get_low_stock (s : DBState) : List Product :=
  (s.products.filter isLowStock).mergeSort (fun p q => p.stock ≤ q.stock)

/-- The `low_stock_count` aggregate of `get_dashboard_analytics`
(src/app.py lines 466-469): `SELECT COUNT(*) FROM products WHERE stock <=
low_stock_threshold`. -/
def low_stock_count (s : DBState) : Nat :=
  (s.products.filter isLowStock).length

/-- Result of the modelled sale creation. -/
inductive SaleResult where
  | ok (sale_id : Nat)
  | notFound
  | invalidInput
deriving DecidableEq

/-- Sale line-item rows created for one sale: consecutive `SERIAL` ids
starting at `nid`, all pointing at sale `sid`, one row per requested
`(product_id, quantity, unit_price)` entry. -/
def mkSaleItems (sid : Nat) (nid : Nat) : List (Nat × Int × Int) → List SaleItem
  | [] => []
  | it :: rest => ⟨nid, sid, it.1, it.2.1, it.2.2⟩ :: mkSaleItems sid (nid + 1) rest

/-- Stock decrements for one sale: each `(product_id, quantity, _)` entry
subtracts its quantity from the matching product's stock (the source policy:
no non-negative-stock guard, negative stock is silently allowed). -/
def applyDecrements (ps : List Product) : List (Nat × Int × Int) → List Product
  | [] => ps
  | it :: rest =>
      applyDecrements
        (ps.map (fun p => if p.id == it.1 then { p with stock := p.stock - it.2.1 } else p)) rest

/-- Modelled from the spec: the sale-creation endpoint is absent from
src/app.py (only the `sales` and `sale_items` tables and the dashboard
aggregate over them appear there), so `createSale` follows spec section 4.4:
validate that the item list is non-empty, that every referenced product
exists (else `NotFound`), and that every quantity is a positive integer;
compute `total_amount` as the sum of quantity times unit price; then in one
atomic unit of work insert the sale row, one sale-item row per entry, and the
stock decrements (permissive negative-stock policy, as the spec says the
source allows).  Any validation failure rejects the request with the state
unchanged. -/
def createSale (s : DBState) (customer_id : Option Nat)
    (items : List (Nat × Int × Int)) (payment_status : String)
    (created_by : Option Nat) : DBState × SaleResult :=
  if items.isEmpty then
    (s, SaleResult.invalidInput)
  else if items.any (fun it => !(s.products.any (fun p => p.id == it.1))) then
    (s, SaleResult.notFound)
  else if items.any (fun it => it.2.1 ≤ 0) then
    (s, SaleResult.invalidInput)
  else
    let total : Int := (items.map (fun it => it.2.1 * it.2.2)).sum
    let sid := s.next_sale_id
    ({ s with
        sales := s.sales ++ [⟨sid, customer_id, total, payment_status, created_by⟩],
        sale_items := s.sale_items ++ mkSaleItems sid s.next_sale_item_id items,
        products := applyDecrements s.products items,
        next_sale_id := sid + 1,
        next_sale_item_id := s.next_sale_item_id + items.length }, SaleResult.ok sid)

/-- One state-mutating operation of the program.  Read-only handlers (logins,
GETs, analytics) do not touch `DBState` and are omitted. -/
inductive Step : DBState → DBState → Prop where
  | borrow (s : DBState) (cid : Nat) (amt : Int) (d : Option String) (u : Option Nat) :
      Step s (add_borrow s cid amt d u).1
  | repay (s : DBState) (cid : Nat) (amt : Int) (d : Option String) (u : Option Nat) :
      Step s (add_repayment s cid amt d u).1
  | newCustomer (s : DBState) (n p : String) (e a : Option String) :
      Step s (add_customer s n p e a).1
  | newProduct (s : DBState) (n c : String) (pr st th : Int) (u : String) :
      Step s (add_product s n c pr st th u).1
  | editProduct (s : DBState) (pid : Nat) (n c : String) (pr st th : Int) (u : String) :
      Step s (update_product s pid n c pr st th u)
  | dropProduct (s : DBState) (pid : Nat) :
      Step s (delete_product s pid).1
  | sale (s : DBState) (cid : Option Nat) (items : List (Nat × Int × Int))
      (ps : String) (u : Option Nat) :
      Step s (createSale s cid items ps u).1

/-- States reachable from the freshly initialized database. -/
inductive Reachable : DBState → Prop where
  | init : Reachable initState
  | step {s s' : DBState} : Reachable s → Step s s' → Reachable s'

/-- Any finite sequence of the program's state-mutating operations. -/
abbrev Steps : DBState → DBState → Prop :=
  Relation.ReflTransGen Step

/-- A reachable state holding one recorded sale (two units of product 1),
used to exercise the referential-integrity rejection of product deletion. -/
def saleRefState : DBState :=
  (createSale initState none [(1, 2, 60)] "paid" none).1

/-- Sum of the amounts of an account's `'borrow'` transaction rows. -/
def borrowedSum (ts : List Transaction) (cid : Nat) : Int :=
  ((ts.filter (fun t => t.customer_id == cid && t.transaction_type == TxKind.borrow)).map
    (fun t => t.amount)).sum

/-- Sum of the amounts of an account's `'repay'` transaction rows. -/
def repaidSum (ts : List Transaction) (cid : Nat) : Int :=
  ((ts.filter (fun t => t.customer_id == cid && t.transaction_type == TxKind.repay)).map
    (fun t => t.amount)).sum

/-- Value of `total_borrowed` seeded by `init_db`'s sample customers (0 for
every id not seeded there). -/
def seedBorrowed (n : Nat) : Int :=
  if n = 1 then 1500 else if n = 2 then 2000 else if n = 3 then 500 else 0

/-- Value of `total_repaid` seeded by `init_db`'s sample customers. -/
def seedRepaid (n : Nat) : Int :=
  if n = 1 then 800 else if n = 2 then 2000 else 0

/-- The stored borrowed/repaid accumulator pair of one customer, as the
customer endpoints read it back. -/
def creditTotals (s : DBState) (cid : Nat) : Option (Int × Int) :=
  (s.customers.find? (fun c => c.id == cid)).map (fun c => (c.total_borrowed, c.total_repaid))

/-- The inductive invariant of reachable states: the id counters dominate all
ids in use (so freshly allocated ids are genuinely fresh), and every stored
accumulator equals its `init_db` seed value plus the replayed transaction
log. -/
structure StateInv (s : DBState) : Prop where
  customer_counter : 4 ≤ s.next_customer_id
  customer_ids : ∀ c ∈ s.customers, c.id < s.next_customer_id
  tx_customer_ids : ∀ t ∈ s.transactions, t.customer_id < s.next_customer_id
  totals : ∀ c ∈ s.customers,
      c.total_borrowed = seedBorrowed c.id + borrowedSum s.transactions c.id ∧
      c.total_repaid = seedRepaid c.id + repaidSum s.transactions c.id
  sale_ids : ∀ sa ∈ s.sales, sa.id < s.next_sale_id
  sale_item_refs : ∀ si ∈ s.sale_items, si.sale_id < s.next_sale_id

lemma stateInv_init : StateInv initState :=
  ⟨by decide, by decide, by decide, by decide, by decide, by decide⟩

lemma seedBorrowed_of_ge (n : Nat) (h : 4 ≤ n) : seedBorrowed n = 0 := by
  unfold seedBorrowed
  split_ifs with h1 h2 h3 <;> omega

lemma seedRepaid_of_ge (n : Nat) (h : 4 ≤ n) : seedRepaid n = 0 := by
  unfold seedRepaid
  split_ifs with h1 h2 <;> omega

lemma borrowedSum_append_one (ts : List Transaction) (t : Transaction) (x : Nat) :
    borrowedSum (ts ++ [t]) x = borrowedSum ts x +
      (if t.customer_id = x ∧ t.transaction_type = TxKind.borrow then t.amount else 0) := by
  by_cases h : t.customer_id = x ∧ t.transaction_type = TxKind.borrow
  · simp [borrowedSum, List.filter_append, List.filter_cons, h, h.1, h.2]
  · simp only [borrowedSum, List.filter_append, List.filter_cons, List.filter_nil]
    rw [if_neg, if_neg h]
    · simp
    · simp only [Bool.and_eq_true, beq_iff_eq]
      exact h

lemma repaidSum_append_one (ts : List Transaction) (t : Transaction) (x : Nat) :
    repaidSum (ts ++ [t]) x = repaidSum ts x +
      (if t.customer_id = x ∧ t.transaction_type = TxKind.repay then t.amount else 0) := by
  by_cases h : t.customer_id = x ∧ t.transaction_type = TxKind.repay
  · simp [repaidSum, List.filter_append, List.filter_cons, h, h.1, h.2]
  · simp only [repaidSum, List.filter_append, List.filter_cons, List.filter_nil]
    rw [if_neg, if_neg h]
    · simp
    · simp only [Bool.and_eq_true, beq_iff_eq]
      exact h

lemma borrowedSum_eq_zero (ts : List Transaction) (x : Nat)
    (h : ∀ t ∈ ts, t.customer_id ≠ x) : borrowedSum ts x = 0 := by
  unfold borrowedSum
  rw [List.filter_eq_nil_iff.mpr]
  · rfl
  · intro t ht
    simp only [Bool.and_eq_true, beq_iff_eq, not_and]
    intro hx
    exact absurd hx (h t ht)

lemma repaidSum_eq_zero (ts : List Transaction) (x : Nat)
    (h : ∀ t ∈ ts, t.customer_id ≠ x) : repaidSum ts x = 0 := by
  unfold repaidSum
  rw [List.filter_eq_nil_iff.mpr]
  · rfl
  · intro t ht
    simp only [Bool.and_eq_true, beq_iff_eq, not_and]
    intro hx
    exact absurd hx (h t ht)

lemma customerExists_lt (s : DBState) (cid : Nat) (hinv : StateInv s)
    (h : customerExists s cid = true) : cid < s.next_customer_id := by
  obtain ⟨c, hc, hid⟩ := List.any_eq_true.mp h
  exact beq_iff_eq.mp hid ▸ hinv.customer_ids c hc

lemma mem_mkSaleItems_sale_id (sid : Nat) (its : List (Nat × Int × Int)) :
    ∀ nid : Nat, ∀ si ∈ mkSaleItems sid nid its, si.sale_id = sid := by
  induction its with
  | nil =>
      intro nid si h
      simp [mkSaleItems] at h
  | cons it rest ih =>
      intro nid si h
      rw [mkSaleItems] at h
      rcases List.mem_cons.mp h with rfl | h'
      · rfl
      · exact ih (nid + 1) si h'

lemma stateInv_add_borrow (s : DBState) (cid : Nat) (amt : Int)
    (d : Option String) (u : Option Nat) (h : StateInv s) :
    StateInv (add_borrow s cid amt d u).1 := by
  by_cases hg : (customerExists s cid && userOk s u) = true
  · have hcid : cid < s.next_customer_id :=
      customerExists_lt s cid h (Bool.and_eq_true .. ▸ hg).1
    simp only [add_borrow, if_pos hg]
    refine ⟨h.customer_counter, ?_, ?_, ?_, h.sale_ids, h.sale_item_refs⟩
    · intro c hc
      obtain ⟨c0, hc0, rfl⟩ := List.mem_map.mp hc
      have := h.customer_ids c0 hc0
      split <;> simpa
    · intro t ht
      rcases List.mem_append.mp ht with h' | h'
      · exact h.tx_customer_ids t h'
      · rcases List.mem_singleton.mp h' with rfl
        exact hcid
    · intro c hc
      obtain ⟨c0, hc0, rfl⟩ := List.mem_map.mp hc
      obtain ⟨hb0, hr0⟩ := h.totals c0 hc0
      by_cases he : c0.id = cid
      · simp only [he, beq_self_eq_true, if_true]
        rw [borrowedSum_append_one, repaidSum_append_one]
        simp only [he] at hb0 hr0
        refine ⟨?_, ?_⟩ <;> (simp [hb0, hr0]; try omega)
      · simp only [if_neg (show ¬(c0.id == cid) = true by simpa using he)]
        rw [borrowedSum_append_one, repaidSum_append_one]
        constructor
        · rw [if_neg (fun hk => he hk.1.symm)]
          simpa using hb0
        · rw [if_neg (fun hk => he hk.1.symm)]
          simpa using hr0
  · simp only [add_borrow, if_neg hg]
    exact h

lemma stateInv_add_repayment (s : DBState) (cid : Nat) (amt : Int)
    (d : Option String) (u : Option Nat) (h : StateInv s) :
    StateInv (add_repayment s cid amt d u).1 := by
  by_cases hg : (customerExists s cid && userOk s u) = true
  · have hcid : cid < s.next_customer_id :=
      customerExists_lt s cid h (Bool.and_eq_true .. ▸ hg).1
    simp only [add_repayment, if_pos hg]
    refine ⟨h.customer_counter, ?_, ?_, ?_, h.sale_ids, h.sale_item_refs⟩
    · intro c hc
      obtain ⟨c0, hc0, rfl⟩ := List.mem_map.mp hc
      have := h.customer_ids c0 hc0
      split <;> simpa
    · intro t ht
      rcases List.mem_append.mp ht with h' | h'
      · exact h.tx_customer_ids t h'
      · rcases List.mem_singleton.mp h' with rfl
        exact hcid
    · intro c hc
      obtain ⟨c0, hc0, rfl⟩ := List.mem_map.mp hc
      obtain ⟨hb0, hr0⟩ := h.totals c0 hc0
      by_cases he : c0.id = cid
      · simp only [he, beq_self_eq_true, if_true]
        rw [borrowedSum_append_one, repaidSum_append_one]
        simp only [he] at hb0 hr0
        refine ⟨?_, ?_⟩ <;> (simp [hb0, hr0]; try omega)
      · simp only [if_neg (show ¬(c0.id == cid) = true by simpa using he)]
        rw [borrowedSum_append_one, repaidSum_append_one]
        constructor
        · rw [if_neg (fun hk => he hk.1.symm)]
          simpa using hb0
        · rw [if_neg (fun hk => he hk.1.symm)]
          simpa using hr0
  · simp only [add_repayment, if_neg hg]
    exact h

lemma stateInv_add_customer (s : DBState) (n p : String) (e a : Option String)
    (h : StateInv s) : StateInv (add_customer s n p e a).1 := by
  by_cases hg : (s.customers.any fun c => c.phone == p) = true
  · simp only [add_customer, if_pos hg]
    exact h
  · simp only [add_customer, if_neg hg]
    have hfresh : ∀ t ∈ s.transactions, t.customer_id ≠ s.next_customer_id :=
      fun t ht => Nat.ne_of_lt (h.tx_customer_ids t ht)
    refine ⟨Nat.le_succ_of_le h.customer_counter, ?_, ?_, ?_, h.sale_ids, h.sale_item_refs⟩
    · intro c hc
      rcases List.mem_append.mp hc with h' | h'
      · exact Nat.lt_succ_of_lt (h.customer_ids c h')
      · rcases List.mem_singleton.mp h' with rfl
        exact Nat.lt_succ_self _
    · intro t ht
      exact Nat.lt_succ_of_lt (h.tx_customer_ids t ht)
    · intro c hc
      rcases List.mem_append.mp hc with h' | h'
      · exact h.totals c h'
      · rcases List.mem_singleton.mp h' with rfl
        refine ⟨?_, ?_⟩
        · rw [seedBorrowed_of_ge _ h.customer_counter,
            borrowedSum_eq_zero _ _ hfresh]
          rfl
        · rw [seedRepaid_of_ge _ h.customer_counter,
            repaidSum_eq_zero _ _ hfresh]
          rfl

lemma stateInv_createSale (s : DBState) (cid : Option Nat)
    (items : List (Nat × Int × Int)) (ps : String) (u : Option Nat)
    (h : StateInv s) : StateInv (createSale s cid items ps u).1 := by
  rw [createSale]
  split
  · exact h
  · split
    · exact h
    · split
      · exact h
      · refine ⟨h.customer_counter, h.customer_ids, h.tx_customer_ids, h.totals, ?_, ?_⟩
        · intro sa hsa
          rcases List.mem_append.mp hsa with h' | h'
          · exact Nat.lt_succ_of_lt (h.sale_ids sa h')
          · rcases List.mem_singleton.mp h' with rfl
            exact Nat.lt_succ_self _
        · intro si hsi
          rcases List.mem_append.mp hsi with h' | h'
          · exact Nat.lt_succ_of_lt (h.sale_item_refs si h')
          · rw [mem_mkSaleItems_sale_id s.next_sale_id items s.next_sale_item_id si h']
            exact Nat.lt_succ_self _

lemma stateInv_step {s s' : DBState} (h : StateInv s) (hs : Step s s') :
    StateInv s' := by
  cases hs with
  | borrow cid amt d u => exact stateInv_add_borrow s cid amt d u h
  | repay cid amt d u => exact stateInv_add_repayment s cid amt d u h
  | newCustomer n p e a => exact stateInv_add_customer s n p e a h
  | newProduct n c pr st th u =>
      exact ⟨h.customer_counter, h.customer_ids, h.tx_customer_ids, h.totals,
        h.sale_ids, h.sale_item_refs⟩
  | editProduct pid n c pr st th u =>
      exact ⟨h.customer_counter, h.customer_ids, h.tx_customer_ids, h.totals,
        h.sale_ids, h.sale_item_refs⟩
  | dropProduct pid =>
      rw [delete_product]
      split
      · exact h
      · exact ⟨h.customer_counter, h.customer_ids, h.tx_customer_ids, h.totals,
          h.sale_ids, h.sale_item_refs⟩
  | sale cid items ps u => exact stateInv_createSale s cid items ps u h

lemma reachable_stateInv {s : DBState} (h : Reachable s) : StateInv s := by
  induction h with
  | init => exact stateInv_init
  | step _ hstep ih => exact stateInv_step ih hstep

lemma mkSaleItems_sum (sid : Nat) (its : List (Nat × Int × Int)) :
    ∀ nid : Nat,
      ((mkSaleItems sid nid its).map (fun si => si.quantity * si.price)).sum
        = (its.map (fun it => it.2.1 * it.2.2)).sum := by
  induction its with
  | nil => intro nid; rfl
  | cons it rest ih =>
      intro nid
      rw [mkSaleItems]
      simp only [List.map_cons, List.sum_cons]
      rw [ih (nid + 1)]

lemma find?_map_id_pres (f : Customer → Customer) (hid : ∀ c, (f c).id = c.id)
    (l : List Customer) (cid : Nat) :
    (l.map f).find? (fun c => c.id == cid) = (l.find? (fun c => c.id == cid)).map f := by
  rw [List.find?_map]
  have hp : ((fun c : Customer => c.id == cid) ∘ f) = fun c : Customer => c.id == cid := by
    funext c
    simp only [Function.comp_apply, hid]
  rw [hp]

lemma creditTotals_borrow_update (l : List Customer) (cid : Nat) (amt : Int) :
    ((l.map (fun c =>
        if c.id == cid then { c with total_borrowed := c.total_borrowed + amt } else c)).find?
          (fun c => c.id == cid)).map (fun c => (c.total_borrowed, c.total_repaid))
      = ((l.find? (fun c => c.id == cid)).map
          (fun c => (c.total_borrowed, c.total_repaid))).map (fun bt => (bt.1 + amt, bt.2)) := by
  rw [find?_map_id_pres _ (fun c => by split <;> rfl)]
  cases h : l.find? (fun c => c.id == cid) with
  | none => rfl
  | some c =>
      have hx := List.find?_some h
      have he : c.id = cid := beq_iff_eq.mp hx
      simp [he]

lemma creditTotals_repay_update (l : List Customer) (cid : Nat) (amt : Int) :
    ((l.map (fun c =>
        if c.id == cid then { c with total_repaid := c.total_repaid + amt } else c)).find?
          (fun c => c.id == cid)).map (fun c => (c.total_borrowed, c.total_repaid))
      = ((l.find? (fun c => c.id == cid)).map
          (fun c => (c.total_borrowed, c.total_repaid))).map (fun bt => (bt.1, bt.2 + amt)) := by
  rw [find?_map_id_pres _ (fun c => by split <;> rfl)]
  cases h : l.find? (fun c => c.id == cid) with
  | none => rfl
  | some c =>
      have hx := List.find?_some h
      have he : c.id = cid := beq_iff_eq.mp hx
      simp [he]

/-- C2: for every credit request (borrow or repay), the transaction-row append
and the accumulator update form one atomic unit of work: on success both are
applied (the log gains exactly the one new row and the customer's stored
totals move by exactly the amount), and on any failure the state is returned
unchanged with one error to the caller. -/
theorem credit_unit_atomic (s : DBState) (cid : Nat) (amt : Int)
    (d : Option String) (u : Option Nat) :
    (((add_borrow s cid amt d u).2 = true ∧
        (add_borrow s cid amt d u).1.transactions
          = s.transactions ++ [⟨s.next_transaction_id, cid, TxKind.borrow, amt, d, u⟩] ∧
        creditTotals (add_borrow s cid amt d u).1 cid
          = (creditTotals s cid).map (fun bt => (bt.1 + amt, bt.2))) ∨
      ((add_borrow s cid amt d u).2 = false ∧ (add_borrow s cid amt d u).1 = s)) ∧
    (((add_repayment s cid amt d u).2 = true ∧
        (add_repayment s cid amt d u).1.transactions
          = s.transactions ++ [⟨s.next_transaction_id, cid, TxKind.repay, amt, d, u⟩] ∧
        creditTotals (add_repayment s cid amt d u).1 cid
          = (creditTotals s cid).map (fun bt => (bt.1, bt.2 + amt))) ∨
      ((add_repayment s cid amt d u).2 = false ∧ (add_repayment s cid amt d u).1 = s)) := by
  constructor
  · by_cases hg : (customerExists s cid && userOk s u) = true
    · left
      refine ⟨by simp [add_borrow, hg], by simp [add_borrow, hg], ?_⟩
      simp only [add_borrow, if_pos hg, creditTotals]
      exact creditTotals_borrow_update s.customers cid amt
    · right
      simp [add_borrow, hg]
  · by_cases hg : (customerExists s cid && userOk s u) = true
    · left
      refine ⟨by simp [add_repayment, hg], by simp [add_repayment, hg], ?_⟩
      simp only [add_repayment, if_pos hg, creditTotals]
      exact creditTotals_repay_update s.customers cid amt
    · right
      simp [add_repayment, hg]

/-- C3 counterexample: the claim says a credit request with non-positive
amount is rejected and leaves the log and accumulators unchanged, but a
borrow of -50 for seeded customer 1 succeeds, appends a transaction row and
changes `total_borrowed` from 1500 to 1450. -/
theorem credit_amount_validation_cex :
    (add_borrow initState 1 (-50) none none).2 = true ∧
    (add_borrow initState 1 (-50) none none).1.transactions.length
      = initState.transactions.length + 1 ∧
    creditTotals (add_borrow initState 1 (-50) none none).1 1 = some (1450, 800) :=
  ⟨by decide, by decide, by decide⟩

/-- C3 amended: the credit handlers perform no amount validation at all —
whenever the referenced customer (and actor) exists, a request with a
non-positive amount is accepted: the transaction row is appended with that
amount and the accumulator is adjusted by it; no InvalidAmount rejection
exists in the code. -/
theorem nonpositive_amount_accepted (s : DBState) (cid : Nat) (amt : Int)
    (d : Option String) (u : Option Nat) (_hamt : amt ≤ 0)
    (hc : customerExists s cid = true) (hu : userOk s u = true) :
    (add_borrow s cid amt d u).2 = true ∧
    (add_borrow s cid amt d u).1.transactions
      = s.transactions ++ [⟨s.next_transaction_id, cid, TxKind.borrow, amt, d, u⟩] ∧
    creditTotals (add_borrow s cid amt d u).1 cid
      = (creditTotals s cid).map (fun bt => (bt.1 + amt, bt.2)) ∧
    (add_repayment s cid amt d u).2 = true ∧
    (add_repayment s cid amt d u).1.transactions
      = s.transactions ++ [⟨s.next_transaction_id, cid, TxKind.repay, amt, d, u⟩] ∧
    creditTotals (add_repayment s cid amt d u).1 cid
      = (creditTotals s cid).map (fun bt => (bt.1, bt.2 + amt)) := by
  have hg : (customerExists s cid && userOk s u) = true := by simp [hc, hu]
  refine ⟨by simp [add_borrow, hg], by simp [add_borrow, hg], ?_,
    by simp [add_repayment, hg], by simp [add_repayment, hg], ?_⟩
  · simp only [add_borrow, if_pos hg, creditTotals]
    exact creditTotals_borrow_update s.customers cid amt
  · simp only [add_repayment, if_pos hg, creditTotals]
    exact creditTotals_repay_update s.customers cid amt

/-- Witness for the amended C3 at the concrete non-positive amount -50 on
seeded customer 1: both credit handlers accept, append the row, and move the
respective accumulator by -50. -/
theorem nonpositive_amount_accepted_witness :
    (add_borrow initState 1 (-50) none none).2 = true ∧
    (add_borrow initState 1 (-50) none none).1.transactions
      = initState.transactions ++ [⟨1, 1, TxKind.borrow, -50, none, none⟩] ∧
    creditTotals (add_borrow initState 1 (-50) none none).1 1
      = (creditTotals initState 1).map (fun bt => (bt.1 + -50, bt.2)) ∧
    (add_repayment initState 1 (-50) none none).2 = true ∧
    (add_repayment initState 1 (-50) none none).1.transactions
      = initState.transactions ++ [⟨1, 1, TxKind.repay, -50, none, none⟩] ∧
    creditTotals (add_repayment initState 1 (-50) none none).1 1
      = (creditTotals initState 1).map (fun bt => (bt.1, bt.2 + -50)) :=
  nonpositive_amount_accepted initState 1 (-50) none none (by decide) (by decide) (by decide)

/-- C9: on the seeded account 1 (totalBorrowed 1500, totalRepaid 800),
recording a repay of 700 succeeds and yields totalRepaid 1500 with
totalBorrowed unchanged, so the derived outstanding balance is 0. -/
theorem repay_scenario_example :
    creditTotals initState 1 = some (1500, 800) ∧
    (add_repayment initState 1 700 none none).2 = true ∧
    creditTotals (add_repayment initState 1 700 none none).1 1 = some (1500, 1500) ∧
    (creditTotals (add_repayment initState 1 700 none none).1 1).map
        (fun bt => bt.1 - bt.2) = some 0 :=
  ⟨by decide, by decide, by decide, by decide⟩

/-- C8: the low-stock predicate holds exactly when stock is at most the
low-stock threshold, and the low-stock listing returns exactly the catalog
items satisfying it (it is derived from the product rows, not stored). -/
theorem low_stock_exact (s : DBState) (p : Product) :
    (isLowStock p = true ↔ p.stock ≤ p.low_stock_threshold) ∧
    (p ∈ get_low_stock s ↔ p ∈ s.products ∧ isLowStock p = true) := by
  constructor
  · simp [isLowStock]
  · simp [get_low_stock, List.mem_mergeSort, List.mem_filter]

/-- Witness for C8: the seeded Milk product (stock 15, threshold 20) is
returned by the low-stock listing. -/
theorem low_stock_exact_witness :
    (⟨3, "Milk (1L)", "Dairy", 55, 15, 20, "liter"⟩ : Product) ∈ get_low_stock initState :=
  ((low_stock_exact initState ⟨3, "Milk (1L)", "Dairy", 55, 15, 20, "liter"⟩).2).mpr
    ⟨by decide, by decide⟩

/-- C1 counterexample: the claimed invariant fails in the reachable state
produced by `init_db` itself: seeded customer 1 has
totalBorrowed - totalRepaid = 700 while its transaction log is empty, so
replaying the log does not reproduce the stored accumulators. -/
theorem projection_invariant_cex :
    Reachable initState ∧
    (⟨1, "Rajesh Kumar", "9876543210", some "rajesh@email.com", some "123 Main St",
        1500, 800⟩ : Customer) ∈ initState.customers ∧
    ¬((1500 : Int) - 800
        = borrowedSum initState.transactions 1 - repaidSum initState.transactions 1) :=
  ⟨Reachable.init, by decide, by decide⟩

/-- C1 amended: in every reachable state, every customer's stored
totalBorrowed equals its `init_db` seed value (1500, 2000, 500 for the three
sample customers, 0 for every customer created through the API) plus the sum
of its borrow transaction amounts, and totalRepaid likewise; hence
totalBorrowed - totalRepaid equals the replayed log difference plus a
constant seed offset, which is 0 for all API-created customers. -/
theorem stored_totals_replay (s : DBState) (hs : Reachable s)
    (c : Customer) (hc : c ∈ s.customers) :
    c.total_borrowed = seedBorrowed c.id + borrowedSum s.transactions c.id ∧
    c.total_repaid = seedRepaid c.id + repaidSum s.transactions c.id :=
  (reachable_stateInv hs).totals c hc

/-- Witness for the amended C1 at seeded customer 1 in the initial state. -/
theorem stored_totals_replay_witness :
    (⟨1, "Rajesh Kumar", "9876543210", some "rajesh@email.com", some "123 Main St",
        1500, 800⟩ : Customer).total_borrowed
      = seedBorrowed 1 + borrowedSum initState.transactions 1 ∧
    (⟨1, "Rajesh Kumar", "9876543210", some "rajesh@email.com", some "123 Main St",
        1500, 800⟩ : Customer).total_repaid
      = seedRepaid 1 + repaidSum initState.transactions 1 :=
  stored_totals_replay initState Reachable.init _ (by decide)

lemma step_transactions_extend {s s' : DBState} (h : Step s s') :
    ∃ ts, s'.transactions = s.transactions ++ ts := by
  cases h with
  | borrow cid amt d u =>
      rw [add_borrow]
      split
      · exact ⟨_, rfl⟩
      · exact ⟨[], (List.append_nil _).symm⟩
  | repay cid amt d u =>
      rw [add_repayment]
      split
      · exact ⟨_, rfl⟩
      · exact ⟨[], (List.append_nil _).symm⟩
  | newCustomer n p e a =>
      rw [add_customer]
      split
      · exact ⟨[], (List.append_nil _).symm⟩
      · exact ⟨[], (List.append_nil _).symm⟩
  | newProduct n c pr st th u => exact ⟨[], (List.append_nil _).symm⟩
  | editProduct pid n c pr st th u => exact ⟨[], (List.append_nil _).symm⟩
  | dropProduct pid =>
      rw [delete_product]
      split
      · exact ⟨[], (List.append_nil _).symm⟩
      · exact ⟨[], (List.append_nil _).symm⟩
  | sale cid items ps u =>
      rw [createSale]
      split
      · exact ⟨[], (List.append_nil _).symm⟩
      · split
        · exact ⟨[], (List.append_nil _).symm⟩
        · split
          · exact ⟨[], (List.append_nil _).symm⟩
          · exact ⟨[], (List.append_nil _).symm⟩

/-- C6: transaction rows are append-only: across any sequence of the
program's state-mutating operations, the later transaction list extends the
earlier one, so every previously created transaction row is still present,
unmodified and in its original position; no operation updates or deletes
one. -/
theorem transactions_append_only (s s' : DBState) (h : Steps s s') :
    ∃ ts, s'.transactions = s.transactions ++ ts := by
  induction h with
  | refl => exact ⟨[], (List.append_nil _).symm⟩
  | tail _ hstep ih =>
      obtain ⟨ts1, h1⟩ := ih
      obtain ⟨ts2, h2⟩ := step_transactions_extend hstep
      exact ⟨ts1 ++ ts2, by rw [h2, h1, List.append_assoc]⟩

/-- Witness for C6: one borrow operation from the initial state only appends
to the transaction log. -/
theorem transactions_append_only_witness :
    ∃ ts, (add_borrow initState 1 50 none none).1.transactions
      = initState.transactions ++ ts :=
  transactions_append_only initState (add_borrow initState 1 50 none none).1
    (Relation.ReflTransGen.single (Step.borrow initState 1 50 none none))

/-- C7: the product delete operation removes a catalog item only when no sale
line item references it; when a reference exists the store rejects the delete
with an integrity error and the whole state — the product row and all sale
line items included — is returned unchanged. -/
theorem delete_product_referential_integrity (s : DBState) (pid : Nat) :
    ((∃ si ∈ s.sale_items, si.product_id = pid) → delete_product s pid = (s, false)) ∧
    ((∀ si ∈ s.sale_items, si.product_id ≠ pid) →
      (delete_product s pid).2 = true ∧
      (delete_product s pid).1.products = s.products.filter (fun p => !(p.id == pid)) ∧
      (delete_product s pid).1.sale_items = s.sale_items ∧
      (delete_product s pid).1.sales = s.sales ∧
      (delete_product s pid).1.transactions = s.transactions ∧
      (delete_product s pid).1.customers = s.customers) := by
  constructor
  · rintro ⟨si, hsi, hpid⟩
    have hany : (s.sale_items.any fun si => si.product_id == pid) = true :=
      List.any_eq_true.mpr ⟨si, hsi, beq_iff_eq.mpr hpid⟩
    rw [delete_product, if_pos hany]
  · intro hnone
    have hany : ¬(s.sale_items.any fun si => si.product_id == pid) = true := by
      intro hcontra
      obtain ⟨si, hsi, hpid⟩ := List.any_eq_true.mp hcontra
      exact hnone si hsi (beq_iff_eq.mp hpid)
    rw [delete_product, if_neg hany]
    exact ⟨rfl, rfl, rfl, rfl, rfl, rfl⟩

/-- Witness for C7: deleting product 1 while a sale item references it is
rejected with the state unchanged; deleting it in the initial state (no sale
items) succeeds. -/
theorem delete_product_referential_integrity_witness :
    delete_product saleRefState 1 = (saleRefState, false) ∧
    (delete_product initState 1).2 = true :=
  ⟨(delete_product_referential_integrity saleRefState 1).1
      ⟨⟨1, 1, 1, 2, 60⟩, by decide, rfl⟩,
    ((delete_product_referential_integrity initState 1).2 (by decide)).1⟩

lemma find?_append_left_none {α : Type} {p : α → Bool} {l1 l2 : List α}
    (h : ∀ a ∈ l1, p a = false) : (l1 ++ l2).find? p = l2.find? p := by
  rw [List.find?_append, List.find?_eq_none.mpr, Option.none_or]
  intro a ha
  simp [h a ha]

/-- C10: every customer created through the public customer-creation
operation starts with totalBorrowed = 0 and totalRepaid = 0 (the handler
inserts only name, phone, email and address, so the caller cannot supply
balances), and in the resulting state its transaction log is empty, so the
stored accumulators agree with the replayed log. -/
theorem new_customer_starts_at_zero (s : DBState) (hs : Reachable s)
    (n p : String) (e a : Option String) (cid : Nat)
    (h : (add_customer s n p e a).2 = some cid) :
    creditTotals (add_customer s n p e a).1 cid = some (0, 0) ∧
    borrowedSum (add_customer s n p e a).1.transactions cid = 0 ∧
    repaidSum (add_customer s n p e a).1.transactions cid = 0 := by
  have hinv := reachable_stateInv hs
  by_cases hg : (s.customers.any fun c => c.phone == p) = true
  · rw [add_customer, if_pos hg] at h
    exact absurd h (by simp)
  · rw [add_customer, if_neg hg] at h
    have hcid : s.next_customer_id = cid := by simpa using h
    subst hcid
    rw [add_customer, if_neg hg]
    refine ⟨?_, ?_, ?_⟩
    · simp only [creditTotals]
      rw [find?_append_left_none fun c hc => by
        simp [Nat.ne_of_lt (hinv.customer_ids c hc)]]
      rw [List.find?_cons_of_pos _ (by simp)]
      rfl
    · exact borrowedSum_eq_zero _ _
        (fun t ht => Nat.ne_of_lt (hinv.tx_customer_ids t ht))
    · exact repaidSum_eq_zero _ _
        (fun t ht => Nat.ne_of_lt (hinv.tx_customer_ids t ht))

/-- Witness for C10: creating a fresh customer in the initial state yields
customer id 4 with zero stored totals and an empty transaction log. -/
theorem new_customer_starts_at_zero_witness :
    creditTotals (add_customer initState "New Customer" "9000000000" none none).1 4
      = some (0, 0) ∧
    borrowedSum (add_customer initState "New Customer" "9000000000" none none).1.transactions 4
      = 0 ∧
    repaidSum (add_customer initState "New Customer" "9000000000" none none).1.transactions 4
      = 0 :=
  new_customer_starts_at_zero initState Reachable.init "New Customer" "9000000000"
    none none 4 (by decide)

/-- C4 (spec-modelled, the sale endpoint is absent from src/): a sale request
referencing a product id that does not exist is rejected with NotFound and
the state is returned unchanged — no sale row, no line items, no stock
change. -/
theorem missing_product_sale_rejected (s : DBState) (cust : Option Nat)
    (items : List (Nat × Int × Int)) (ps : String) (u : Option Nat)
    (it : Nat × Int × Int) (hit : it ∈ items)
    (hmiss : ∀ p ∈ s.products, p.id ≠ it.1) :
    createSale s cust items ps u = (s, SaleResult.notFound) := by
  have hne : items.isEmpty = false :=
    List.isEmpty_eq_false.mpr (List.ne_nil_of_mem hit)
  have hany : (items.any fun it2 => !(s.products.any fun p => p.id == it2.1)) = true := by
    refine List.any_eq_true.mpr ⟨it, hit, ?_⟩
    simp only [Bool.not_eq_true']
    rw [List.any_eq_false]
    intro p hp
    simp [hmiss p hp]
  rw [createSale, if_neg (by simp [hne]), if_pos hany]

lemma filter_mkSaleItems (sid nid : Nat) (its : List (Nat × Int × Int)) :
    (mkSaleItems sid nid its).filter (fun si => si.sale_id == sid)
      = mkSaleItems sid nid its :=
  List.filter_eq_self.mpr (fun si hsi => by
    simp [mem_mkSaleItems_sale_id sid its nid si hsi])

/-- C5 (spec-modelled, the sale endpoint is absent from src/): the stored
total_amount of every successfully created sale equals the sum over its line
items of quantity times unit price at time of sale, for arbitrary positive
integer quantities and arbitrary (hence all non-negative) prices. -/
theorem sale_total_eq_line_item_sum (s : DBState) (hs : Reachable s)
    (cust : Option Nat) (items : List (Nat × Int × Int)) (ps : String)
    (u : Option Nat) (sid : Nat)
    (h : (createSale s cust items ps u).2 = SaleResult.ok sid) :
    ((createSale s cust items ps u).1.sales.find? (fun sa => sa.id == sid)).map
        (fun sa => sa.total_amount)
      = some ((((createSale s cust items ps u).1.sale_items.filter
          (fun si => si.sale_id == sid)).map (fun si => si.quantity * si.price)).sum) := by
  have hinv := reachable_stateInv hs
  rw [createSale] at h ⊢
  by_cases c1 : items.isEmpty = true
  · rw [if_pos c1] at h
    exact absurd h (by simp)
  · rw [if_neg c1] at h ⊢
    by_cases c2 : (items.any fun it => !(s.products.any fun p => p.id == it.1)) = true
    · rw [if_pos c2] at h
      exact absurd h (by simp)
    · rw [if_neg c2] at h ⊢
      by_cases c3 : (items.any fun it => decide (it.2.1 ≤ 0)) = true
      · rw [if_pos c3] at h
        exact absurd h (by simp)
      · rw [if_neg c3] at h ⊢
        have hsid : s.next_sale_id = sid := by simpa using h
        subst hsid
        dsimp only
        rw [find?_append_left_none fun sa hsa => by
          simp [Nat.ne_of_lt (hinv.sale_ids sa hsa)]]
        rw [List.find?_cons_of_pos _ (by simp)]
        rw [List.filter_append]
        rw [List.filter_eq_nil_iff.mpr fun si hsi => by
          simp [Nat.ne_of_lt (hinv.sale_item_refs si hsi)]]
        rw [List.nil_append, filter_mkSaleItems]
        rw [mkSaleItems_sum]
        rfl

/-- Witness for C5: a concrete successful sale in the initial state (two
units of product 1 at price 60 and one unit of product 3 at price 55) has
stored total 175, equal to the sum over its stored line items. -/
theorem sale_total_eq_line_item_sum_witness :
    ((createSale initState none [(1, 2, 60), (3, 1, 55)] "paid" none).1.sales.find?
        (fun sa => sa.id == 1)).map (fun sa => sa.total_amount)
      = some ((((createSale initState none
            [(1, 2, 60), (3, 1, 55)] "paid" none).1.sale_items.filter
          (fun si => si.sale_id == 1)).map (fun si => si.quantity * si.price)).sum) :=
  sale_total_eq_line_item_sum initState Reachable.init none [(1, 2, 60), (3, 1, 55)]
    "paid" none 1 (by decide)

/-- Witness for C4: a sale referencing nonexistent product id 999 in the
initial state is rejected with NotFound and changes nothing. -/
theorem missing_product_sale_rejected_witness :
    createSale initState none [(999, 1, 10)] "paid" none
      = (initState, SaleResult.notFound) :=
  missing_product_sale_rejected initState none [(999, 1, 10)] "paid" none
    (999, 1, 10) (by decide) (by decide)

end Grocery
